import Mathlib

/-!
Verification of the PRICE_LENS evidence-and-explanation core.

This file gives a shallow embedding of the two core modules of the
repository, `src/attribution_engine.py` (class `AttributionEngine`) and
`src/genai_explainer.py` (class `GenAIExplainer`), and proves or refutes
the specification claims about them.

Modelling conventions:
- Python floats are modelled as exact rationals (`ℚ`); `round(x, n)` is
  modelled by round-half-to-even on the scaled rational, matching Python's
  `round` on decimal values.
- Python dicts that the code indexes with possibly-missing keys are
  modelled with `Option` fields (a `none` field models an absent key);
  an uncaught Python exception (`KeyError`, `IndexError`, `TypeError`)
  is modelled by the `Except.error` side of the return type.
- Python strings are Lean `String`s; `str.replace` is modelled by
  `pyReplace`, a leftmost non-overlapping replace-all on the character
  list, as CPython implements it.
- The external collaborators (uuid, clock, the SHAP explainer, the audit
  sink) are passed in as parameters or dropped when they have no effect
  on the returned values: the audit logger only appends to a file.
-/

namespace PriceLens

/-! ### Numeric helpers: Python `round` on rationals -/

/-- Floor of a rational number, computed on the reduced fraction. -/
def qfloor (q : ℚ) : ℤ := q.num.fdiv (q.den : ℤ)

/-- Round a rational to the nearest integer, halves to even: the semantics
of Python's builtin `round` on exact decimal values. -/
def rhe (q : ℚ) : ℤ :=
  if q - (qfloor q : ℚ) < 1/2 then qfloor q
  else if 1/2 < q - (qfloor q : ℚ) then qfloor q + 1
  else if qfloor q % 2 = 0 then qfloor q else qfloor q + 1

/-- Python `round(x, 2)`. -/
def round2 (q : ℚ) : ℚ := (rhe (q * 100) : ℚ) / 100

/-- Python `round(x, 1)`. -/
def round1 (q : ℚ) : ℚ := (rhe (q * 10) : ℚ) / 10

/-- A rational with at most two decimal digits: an integer multiple of
`1/100`.  This is what "exactly two decimal digits" means for the values
produced by `round(x, 2)`. -/
def TwoDec (q : ℚ) : Prop := ∃ n : ℤ, q = (n : ℚ) / 100

/-! ### Text helpers: Python `str.replace` and `str.title` -/

/-- One pass of Python `str.replace`: leftmost, non-overlapping, the
replacement is not rescanned.  The `fuel` argument makes the recursion
structural; `fuel ≥ s.length` always suffices because each step consumes
at least one character of `s`. -/
def replaceGo (pat rep : List Char) : List Char → Nat → List Char
  | s, 0 => s
  | [], _ + 1 => []
  | c :: rest, fuel + 1 =>
    if pat.isPrefixOf (c :: rest) ∧ pat ≠ [] then
      rep ++ replaceGo pat rep ((c :: rest).drop pat.length) fuel
    else
      c :: replaceGo pat rep rest fuel

/-- Python `s.replace(pat, rep)` on character lists (for nonempty `pat`). -/
def replaceAll (pat rep s : List Char) : List Char := replaceGo pat rep s s.length

/-- Python `s.replace(pat, rep)` on strings. -/
def pyReplace (s pat rep : String) : String := String.mk (replaceAll pat.data rep.data s.data)

/-- Whether `pat` occurs as a contiguous substring of `s`. -/
def containsSub (pat : List Char) : List Char → Bool
  | [] => pat.isEmpty
  | c :: rest => pat.isPrefixOf (c :: rest) || containsSub pat rest

/-- Helper for `pyTitle`: the boolean records whether the previous
character was alphabetic. -/
def pyTitleGo : Bool → List Char → List Char
  | _, [] => []
  | prevAlpha, c :: rest =>
    (if prevAlpha then c.toLower else c.toUpper) :: pyTitleGo c.isAlpha rest

/-- Python `str.title` (ASCII-cased, which covers every key the code uses). -/
def pyTitle (s : String) : String := String.mk (pyTitleGo false s.data)

/-- Rendering of a number inside an f-string.  The claims never depend on
the digits, only on the surrounding structure, so a canonical exact
rendering of the rational stands in for Python float formatting. -/
def pyStr (q : ℚ) : String :=
  toString q.num ++ (if q.den = 1 then "" else "/" ++ toString q.den)

/-! ### Data model -/

/-- The `safety_flags` record of the evidence contract. -/
structure SafetyFlags where
  hide_exact_costs : Bool
  hide_supplier_names : Bool
deriving DecidableEq

/-- The `time_window` record (`from`/`to` are Lean keywords, hence the
`window_` prefixes). -/
structure TimeWindow where
  window_from : String
  window_to : String
deriving DecidableEq

/-- One entry of `features_used` as built by `AttributionEngine`
(`attribution_engine.py` lines 122-128 and 140-145).  `shap_raw` is
present only in explainer mode, hence the `Option`. -/
structure Feature where
  name : String
  value_change_pct : ℚ
  attribution : ℚ
  shap_raw : Option ℚ
  data_source : String
deriving DecidableEq

/-- The evidence record.  Every field is an `Option` so that a record
missing a key of the Python dict is representable; `confidence_score`
is doubly optional because the key can be present with value `None`
(`validate_evidence` checks both).  `event_id`, `product_id` and
`event_time` are not among the nine validated fields. -/
structure Evidence where
  event_id : Option String
  product_id : Option String
  old_price : Option ℚ
  new_price : Option ℚ
  currency : Option String
  event_time : Option String
  model_version : Option String
  xai_method : Option String
  time_window : Option TimeWindow
  features_used : Option (List Feature)
  confidence_score : Option (Option ℚ)
  safety_flags : Option SafetyFlags
deriving DecidableEq

/-- The dict returned by `generate_explanations`: `evidence_used` is only
present on success and `error` only on refusal, hence the `Option`s. -/
structure GenResult where
  customer_text : String
  regulator_text : String
  evidence_used : Option String
  error : Option String

/-- A pricing state as consumed by `analyze_change`: a price and an
insertion-ordered dict of input features. -/
structure State where
  price : ℚ
  inputs : List (String × ℚ)
deriving DecidableEq

/-- The mutable state of `AttributionEngine`: the baseline cell plus the
explainability capability chosen at construction (`explainer = none`
models fallback mode; in explainer mode the opaque SHAP collaborator is
the function from the new state's inputs to the per-feature value
array). -/
structure AttributionEngine where
  previous_state : Option State
  explainer : Option (List (String × ℚ) → List ℚ)
  feature_names : List String

/-- An uncaught Python exception crossing the core's boundary. -/
inductive PyErr where
  | keyError : String → PyErr
  | indexError : PyErr
  | typeError : PyErr
deriving DecidableEq

/-- Python dict subscription `d[k]`: raises `KeyError` when absent. -/
def req (o : Option α) (k : String) (f : α → Except PyErr β) : Except PyErr β :=
  match o with
  | none => Except.error (PyErr.keyError k)
  | some v => f v

/-- Python dict subscription on an association list. -/
def lookupE (m : List (String × ℚ)) (k : String) (f : ℚ → Except PyErr β) : Except PyErr β :=
  match m.lookup k with
  | none => Except.error (PyErr.keyError k)
  | some v => f v

/-! ### GenAIExplainer (`src/genai_explainer.py`) -/

/-- `GenAIExplainer.validate_evidence` (lines 9-34): presence of the nine
required fields in order, then the `confidence_score is None` check, then
the `xai_method != 'SHAP'` check.  The short-circuiting `&&` chain has
exactly the early-return semantics of the Python loop. -/
def validate_evidence (e : Evidence) : Bool :=
  e.old_price.isSome && e.new_price.isSome && e.currency.isSome &&
  e.model_version.isSome && e.time_window.isSome && e.features_used.isSome &&
  e.confidence_score.isSome && e.safety_flags.isSome && e.xai_method.isSome &&
  !(decide (e.confidence_score = some none)) &&
  decide (e.xai_method = some "SHAP")

/-- `GenAIExplainer.safety_filter` (lines 36-43). -/
def safety_filter (text : String) (flags : SafetyFlags) : String :=
  if flags.hide_exact_costs then
    pyReplace (pyReplace text "₹" "₹~") "INR" "INR~"
  else text

/-- `GenAIExplainer.get_confidence_label` (lines 45-51). -/
def get_confidence_label (score : ℚ) : String :=
  if 80/100 ≤ score then "High confidence"
  else if 50/100 ≤ score then "Medium confidence"
  else "Low confidence"

/-- The friendly-name mapping of `format_explanation` (lines 100-105). -/
def friendly_name_of (raw_name : String) : String :=
  if raw_name = "raw_material_cost" then "Raw Material Costs"
  else if raw_name = "demand_index" then "Market Demand"
  else if raw_name = "inventory_level" then "Inventory Availability"
  else if raw_name = "competitor_price_avg" then "Competitor Pricing"
  else pyTitle (pyReplace raw_name "_" " ")

/-- One bullet of the attribution narrative (lines 95-114). -/
def feature_line (audience : String) (f : Feature) : String :=
  let impact_pct := rhe (f.attribution * 100)
  let change_pct := f.value_change_pct
  if audience = "regulator" then
    "• " ++ f.name ++ ": " ++ toString impact_pct ++ "% attribution (Input change: " ++
      pyStr change_pct ++ "%)\n"
  else
    let direction :=
      if f.name = "competitor_price_avg" then "fluctuation"
      else if 0 < change_pct then "increased" else "decreased"
    "• " ++ friendly_name_of f.name ++ ": ≈" ++ toString impact_pct ++ "% impact (Factor " ++
      direction ++ ")\n"

/-- The comparator realizing `key=lambda x: abs(x['attribution'])` with
`reverse=True`: `a` may precede `b` when its key is at least `b`'s. -/
def featLE (a b : Feature) : Bool := decide (|b.attribution| ≤ |a.attribution|)

/-- The feature ordering used by the renderer (line 69):
`sorted(features, key=lambda x: abs(x['attribution']), reverse=True)`,
a stable descending sort by attribution magnitude (CPython's `sorted` is
stable, also under `reverse=True`). -/
def sorted_features (features : List Feature) : List Feature :=
  features.mergeSort featLE

/-- `GenAIExplainer.format_explanation` (lines 53-134).  Fields are read
in source order; a missing field raises `KeyError` and a `None`
confidence raises `TypeError` at the `>=` comparison inside
`get_confidence_label`. -/
def format_explanation (e : Evidence) (audience : String) : Except PyErr String :=
  req e.old_price "old_price" fun old_price =>
  req e.new_price "new_price" fun new_price =>
  req e.currency "currency" fun currency0 =>
  let currency := if currency0 = "INR" then "₹" else currency0
  req e.time_window "time_window" fun tw =>
  req e.model_version "model_version" fun model_version =>
  req e.confidence_score "confidence_score" fun confidence_opt =>
  req e.features_used "features_used" fun features =>
  let xai_method := e.xai_method.getD "Unknown"
  let sorted := sorted_features features
  let title := "Price Change Explanation" ++
    (if audience = "regulator" then " (Regulatory Audit)" else " (Customer Summary)")
  let summary_section := "**Price Change Summary**\n" ++
    "• Price: " ++ currency ++ pyStr old_price ++ " → " ++ currency ++ pyStr new_price ++ "\n" ++
    "• Time Window: " ++ tw.window_from ++ " to " ++ tw.window_to ++ "\n" ++
    (if audience = "regulator" then "• ML Model: " ++ model_version ++ "\n" else "")
  let direction_str := if old_price < new_price then "increase" else "decrease"
  let attribution_section := "**Machine Learning–Based Feature Attribution**\n" ++
    (if audience = "regulator" then
      "The model detected a price " ++ direction_str ++ " driven by the following factors:\n"
     else "We adjusted the price due to the following main factors:\n") ++
    String.join (sorted.map (feature_line audience))
  match confidence_opt with
  | none => Except.error PyErr.typeError
  | some confidence_score =>
  let confidence_section := "**Confidence Score & Methodology**\n" ++
    "• Confidence Level: " ++ get_confidence_label confidence_score ++ " (" ++
      pyStr confidence_score ++ ")\n" ++
    "• Methodology: Feature importance calculated using " ++ xai_method ++ ".\n" ++
    (if audience = "regulator" then
      "• Traceability: All values derived from Model " ++ model_version ++ " via " ++
        xai_method ++ ".\n"
     else "")
  let disclaimer_section := "**Disclaimer**\n" ++
    "This explanation is generated automatically based on model inputs. " ++
    "It does not constitute a legal or binding commitment. " ++
    (if audience = "customer" then "Please contact support for detailed inquiries." else "")
  Except.ok ("# " ++ title ++ "\n\n" ++ summary_section ++ "\n" ++ attribution_section ++
    "\n" ++ confidence_section ++ "\n" ++ disclaimer_section)

/-- The fixed refusal string (lines 144-145). -/
def refusal_text : String := "Explanation unavailable due to data validation failure."

/-- The refusal payload returned on validation failure (lines 143-147):
both texts are the refusal string, `error` is set, `evidence_used` absent. -/
def refusal_result : GenResult :=
  { customer_text := refusal_text, regulator_text := refusal_text,
    evidence_used := none, error := some "Validation Failed" }

/-- `GenAIExplainer.generate_explanations` (lines 136-165).  On success
the result dict reads `evidence['event_id']`, which is not one of the
nine validated fields. -/
def generate_explanations (e : Evidence) : Except PyErr GenResult :=
  if validate_evidence e then
    match format_explanation e "customer" with
    | Except.error err => Except.error err
    | Except.ok raw_customer =>
    match format_explanation e "regulator" with
    | Except.error err => Except.error err
    | Except.ok raw_regulator =>
    req e.safety_flags "safety_flags" fun flags =>
    req e.event_id "event_id" fun event_id =>
    Except.ok
      { customer_text := safety_filter raw_customer flags,
        regulator_text := safety_filter raw_regulator flags,
        evidence_used := some event_id, error := none }
  else
    Except.ok refusal_result

/-! ### AttributionEngine (`src/attribution_engine.py`) -/

/-- The fixed `data_sources` mapping (lines 16-21). -/
def data_sources : List (String × String) :=
  [("raw_material_cost", "supplier_invoices"),
   ("demand_index", "sales_forecast_model"),
   ("inventory_level", "warehouse_system"),
   ("competitor_price_avg", "market_scraper")]

/-- `self.data_sources.get(name, "unknown")`. -/
def data_source_of (k : String) : String := (data_sources.lookup k).getD "unknown"

/-- The zero-denominator-guarded percentage change (lines 111-114, 134-137). -/
def pct_change_of (new_val old_val : ℚ) : ℚ :=
  if old_val ≠ 0 then (new_val - old_val) / old_val * 100 else 0

/-- The explainer-mode loop (lines 106-128): walk `feature_names` with an
index into the SHAP value array `sv`; an index beyond the array raises.
A feature enters the output only when `|shap|` exceeds `0.001`. -/
def shap_features (sv : List ℚ) (new_inputs old_inputs : List (String × ℚ)) :
    Nat → List String → Except PyErr (List Feature)
  | _, [] => Except.ok []
  | i, name :: rest =>
    match sv[i]? with
    | none => Except.error PyErr.indexError
    | some shap_val =>
      let raw_val := ((new_inputs.lookup name).getD 0)
      let old_val := ((old_inputs.lookup name).getD 0)
      match shap_features sv new_inputs old_inputs (i + 1) rest with
      | Except.error err => Except.error err
      | Except.ok tail =>
        Except.ok
          (if 1/1000 < |shap_val| then
            { name := name, value_change_pct := round1 (pct_change_of raw_val old_val),
              attribution := |shap_val|, shap_raw := some shap_val,
              data_source := data_source_of name } :: tail
           else tail)

/-- The fallback-mode loop (lines 130-145): iterate the old inputs in
insertion order; `new_inputs[key]` raises `KeyError` when the key is
gone.  A feature enters the output only when `|pct_change|` exceeds
`0.001`; no signed raw value is kept. -/
def fallback_features (new_inputs : List (String × ℚ)) :
    List (String × ℚ) → Except PyErr (List Feature)
  | [] => Except.ok []
  | (key, old_val) :: rest =>
    lookupE new_inputs key fun new_val =>
    let pct := pct_change_of new_val old_val
    match fallback_features new_inputs rest with
    | Except.error err => Except.error err
    | Except.ok tail =>
      Except.ok
        (if 1/1000 < |pct| then
          { name := key, value_change_pct := round1 pct, attribution := |pct|,
            shap_raw := none, data_source := data_source_of key } :: tail
         else tail)

/-- The `features[0]` drift correction of `normalize_attributions`
(lines 66-68).  The empty case is unreachable there (the list was checked
nonempty); returning `[]` totalises it. -/
def bump_first (diff : ℚ) : List Feature → List Feature
  | [] => []
  | f0 :: rest => { f0 with attribution := round2 (f0.attribution + diff) } :: rest

/-- `AttributionEngine.normalize_attributions` (lines 47-70). -/
def normalize_attributions (features : List Feature) : List Feature :=
  if features.isEmpty then features
  else
    let total := (features.map (fun f => |f.attribution|)).sum
    if total = 0 then features
    else
      let fs := features.map (fun f => { f with attribution := round2 (f.attribution / total) })
      let diff := round2 (1 - (fs.map Feature.attribution).sum)
      if diff ≠ 0 then bump_first diff fs else fs

/-- The mode dispatch of `analyze_change` (line 89): explainer mode when
the SHAP capability was initialized, fallback mode otherwise. -/
def compute_features (eng : AttributionEngine) (prev current : State) :
    Except PyErr (List Feature) :=
  match eng.explainer with
  | some ex => shap_features (ex current.inputs) current.inputs prev.inputs 0 eng.feature_names
  | none => fallback_features current.inputs prev.inputs

/-- The body of `analyze_change` past the materiality gate (lines 84-190):
attribution computation, normalization, the strict sum check, and the
construction of the frozen evidence.  The uuid and the three timestamp
strings come from the uuid and clock collaborators.  Both `return None`
exits past this point first replace the baseline (lines 157, 189). -/
def attribution_path (eng : AttributionEngine) (prev current : State)
    (uuid event_time wfrom wto : String) :
    AttributionEngine × Except PyErr (Option Evidence) :=
  match compute_features eng prev current with
  | Except.error err => (eng, Except.error err)
  | Except.ok fs0 =>
    let features_used := normalize_attributions fs0
    let total_attribution := (features_used.map Feature.attribution).sum
    if 1/1000 < |total_attribution - 1| ∧ 0 < features_used.length then
      ({ eng with previous_state := some current }, Except.ok none)
    else
      ({ eng with previous_state := some current },
       Except.ok (some
         { event_id := some uuid, product_id := some "SKU-123",
           old_price := some prev.price, new_price := some current.price,
           currency := some "INR", event_time := some event_time,
           model_version := some "pricing_xgboost_v1", xai_method := some "SHAP",
           time_window := some { window_from := wfrom, window_to := wto },
           features_used := some features_used,
           confidence_score := some (some (92/100)),
           safety_flags := some { hide_exact_costs := true, hide_supplier_names := true } }))

/-- `AttributionEngine.analyze_change` (lines 72-190).  The first call
stores the state and returns `None`; a sub-threshold price move returns
`None` early, before the baseline-replacing tail of the method. -/
def analyze_change (eng : AttributionEngine) (current_state : State)
    (uuid event_time wfrom wto : String) :
    AttributionEngine × Except PyErr (Option Evidence) :=
  match eng.previous_state with
  | none => ({ eng with previous_state := some current_state }, Except.ok none)
  | some prev =>
    if |current_state.price - prev.price| < 1/100 then
      (eng, Except.ok none)
    else
      attribution_path eng prev current_state uuid event_time wfrom wto

/-! ### Shared lemmas about the text helpers -/

/-- A replace pass over a string that does not contain the pattern is the
identity, whatever the fuel: the replacing branch is never taken. -/
theorem replaceGo_eq_of_not_contains (pat rep : List Char) :
    ∀ (fuel : Nat) (s : List Char), containsSub pat s = false → replaceGo pat rep s fuel = s := by
  intro fuel
  induction fuel with
  | zero => intro s h; cases s <;> simp [replaceGo]
  | succ n ih =>
    intro s h
    cases s with
    | nil => simp [replaceGo]
    | cons c rest =>
      simp only [containsSub, Bool.or_eq_false_iff] at h
      rw [replaceGo, if_neg]
      · rw [ih rest h.2]
      · intro hc
        exact absurd hc.1 (by simp [h.1])

/-- String-level version of `replaceGo_eq_of_not_contains`. -/
theorem pyReplace_eq_of_not_contains (s pat rep : String)
    (h : containsSub pat.data s.data = false) : pyReplace s pat rep = s := by
  unfold pyReplace replaceAll
  rw [replaceGo_eq_of_not_contains pat.data rep.data s.data.length s.data h]

/-- On a text that contains neither the currency glyph nor the currency
code, the safety filter is the identity. -/
theorem safety_filter_eq_of_no_token (text : String) (flags : SafetyFlags)
    (h1 : containsSub "₹".data text.data = false)
    (h2 : containsSub "INR".data text.data = false) :
    safety_filter text flags = text := by
  unfold safety_filter
  split
  · rw [pyReplace_eq_of_not_contains text "₹" "₹~" h1,
      pyReplace_eq_of_not_contains text "INR" "INR~" h2]
  · rfl

/-! ### Shared lemmas about rounding and normalization -/

/-- `qfloor` is the identity on integers. -/
theorem qfloor_intCast (n : ℤ) : qfloor (n : ℚ) = n := by
  unfold qfloor
  rw [Rat.num_intCast, Rat.den_intCast]
  simp [Int.fdiv_one]

/-- Python `round` is the identity on integers. -/
theorem rhe_intCast (n : ℤ) : rhe ((n : ℤ) : ℚ) = n := by
  simp only [rhe, qfloor_intCast]
  norm_num

theorem twoDec_round2 (q : ℚ) : TwoDec (round2 q) := ⟨rhe (q * 100), rfl⟩

/-- Re-rounding a two-decimal value changes nothing. -/
theorem round2_eq_self (q : ℚ) (h : TwoDec q) : round2 q = q := by
  obtain ⟨n, rfl⟩ := h
  unfold round2
  rw [div_mul_cancel₀ _ (by norm_num : (100 : ℚ) ≠ 0), rhe_intCast]

theorem twoDec_zero : TwoDec 0 := ⟨0, by norm_num⟩

theorem twoDec_one : TwoDec 1 := ⟨100, by norm_num⟩

theorem twoDec_add {a b : ℚ} (ha : TwoDec a) (hb : TwoDec b) : TwoDec (a + b) := by
  obtain ⟨m, rfl⟩ := ha
  obtain ⟨n, rfl⟩ := hb
  exact ⟨m + n, by push_cast; ring⟩

theorem twoDec_sub {a b : ℚ} (ha : TwoDec a) (hb : TwoDec b) : TwoDec (a - b) := by
  obtain ⟨m, rfl⟩ := ha
  obtain ⟨n, rfl⟩ := hb
  exact ⟨m - n, by push_cast; ring⟩

theorem twoDec_sum (l : List ℚ) (h : ∀ x ∈ l, TwoDec x) : TwoDec l.sum := by
  induction l with
  | nil => simpa using twoDec_zero
  | cons x xs ih =>
    rw [List.sum_cons]
    exact twoDec_add (h x (by simp)) (ih fun y hy => h y (by simp [hy]))

/-- The drift-correction stage of `normalize_attributions`: on any
nonempty list of two-decimal attributions it forces the sum to exactly
one and keeps every value two-decimal. -/
theorem fix_stage (fs : List Feature) (hne : fs ≠ [])
    (hTD : ∀ f ∈ fs, TwoDec f.attribution) :
    (((if round2 (1 - (fs.map Feature.attribution).sum) ≠ 0 then
        bump_first (round2 (1 - (fs.map Feature.attribution).sum)) fs
      else fs)).map Feature.attribution).sum = 1 ∧
    ∀ f ∈ (if round2 (1 - (fs.map Feature.attribution).sum) ≠ 0 then
        bump_first (round2 (1 - (fs.map Feature.attribution).sum)) fs
      else fs), TwoDec f.attribution := by
  have hsumTD : TwoDec ((fs.map Feature.attribution).sum) := by
    refine twoDec_sum _ ?_
    intro x hx
    obtain ⟨f, hf, rfl⟩ := List.mem_map.1 hx
    exact hTD f hf
  have hdiffEq : round2 (1 - (fs.map Feature.attribution).sum) =
      1 - (fs.map Feature.attribution).sum :=
    round2_eq_self _ (twoDec_sub twoDec_one hsumTD)
  by_cases hd : round2 (1 - (fs.map Feature.attribution).sum) = 0
  · rw [if_neg (not_not_intro hd)]
    refine ⟨?_, hTD⟩
    rw [hdiffEq] at hd
    linarith
  · rw [if_pos hd]
    obtain ⟨f0, rest, rfl⟩ : ∃ f0 rest, fs = f0 :: rest := by
      cases fs with
      | nil => exact absurd rfl hne
      | cons a l => exact ⟨a, l, rfl⟩
    constructor
    · simp only [List.map_cons, List.sum_cons] at hdiffEq
      simp only [bump_first, List.map_cons, List.sum_cons]
      rw [round2_eq_self _ (twoDec_add (hTD f0 (by simp)) (twoDec_round2 _)), hdiffEq]
      ring
    · intro f hf
      simp only [bump_first, List.mem_cons] at hf
      rcases hf with rfl | hf
      · exact twoDec_round2 _
      · exact hTD f (List.mem_cons_of_mem _ hf)

/-- In the non-degenerate case (`total ≠ 0`), `normalize_attributions`
yields attributions summing to exactly one, all two-decimal. -/
theorem normalize_attributions_spec (features : List Feature) (hne : features ≠ [])
    (htot : (features.map (fun f => |f.attribution|)).sum ≠ 0) :
    ((normalize_attributions features).map Feature.attribution).sum = 1 ∧
    ∀ f ∈ normalize_attributions features, TwoDec f.attribution := by
  have hE : features.isEmpty = false := by simpa [List.isEmpty_iff] using hne
  simp only [normalize_attributions, hE, Bool.false_eq_true, if_false, if_neg htot]
  refine fix_stage _ ?_ ?_
  · intro hmap
    exact hne (List.map_eq_nil_iff.1 hmap)
  · intro f hf
    obtain ⟨g, hg, rfl⟩ := List.mem_map.1 hf
    exact twoDec_round2 _

/-! ### Claim C4: normalization sums to one with two-decimal values -/

/-- Claim C4 fails on the code for a nonempty list whose attributions are
all zero: `normalize_attributions` returns it unchanged (the `total == 0`
early exit, line 56-57), so the attributions sum to `0`, not `1 ± 0.001`. -/
theorem normalize_attributions_counterexample :
    ¬ |((normalize_attributions
        [{ name := "a", value_change_pct := 0, attribution := 0, shap_raw := none,
           data_source := "unknown" }]).map Feature.attribution).sum - 1| ≤ 1/1000 := by
  have h : normalize_attributions
      [{ name := "a", value_change_pct := 0, attribution := 0, shap_raw := none,
         data_source := "unknown" }] =
      [{ name := "a", value_change_pct := 0, attribution := 0, shap_raw := none,
         data_source := "unknown" }] := by
    simp [normalize_attributions]
  rw [h]
  simp only [List.map_cons, List.map_nil, List.sum_cons, List.sum_nil]
  rw [abs_of_nonpos (by norm_num)]
  norm_num

/-- Claim C4 amended: for every non-empty attribution list whose total
absolute attribution is nonzero (when the total is zero the list is
returned unchanged and the property fails), the normalized attributions
sum to `1.0` within `0.001` — in fact exactly — and every returned
attribution has at most two decimal digits. -/
theorem normalize_attributions_sums_to_one (features : List Feature)
    (hne : features ≠ [])
    (htot : (features.map (fun f => |f.attribution|)).sum ≠ 0) :
    |((normalize_attributions features).map Feature.attribution).sum - 1| ≤ 1/1000 ∧
    ∀ f ∈ normalize_attributions features, ∃ n : ℤ, f.attribution = (n : ℚ) / 100 := by
  obtain ⟨hsum, hTD⟩ := normalize_attributions_spec features hne htot
  refine ⟨?_, hTD⟩
  rw [hsum]
  norm_num

/-- Witness for `normalize_attributions_sums_to_one` on two features of
equal weight. -/
theorem normalize_attributions_sums_to_one_witness :
    |((normalize_attributions
        [{ name := "a", value_change_pct := 0, attribution := 1/2, shap_raw := none,
           data_source := "unknown" },
         { name := "b", value_change_pct := 0, attribution := 1/2, shap_raw := none,
           data_source := "unknown" }]).map Feature.attribution).sum - 1| ≤ 1/1000 ∧
    ∀ f ∈ normalize_attributions
        [{ name := "a", value_change_pct := 0, attribution := 1/2, shap_raw := none,
           data_source := "unknown" },
         { name := "b", value_change_pct := 0, attribution := 1/2, shap_raw := none,
           data_source := "unknown" }], ∃ n : ℤ, f.attribution = (n : ℚ) / 100 :=
  normalize_attributions_sums_to_one _ (by simp)
    (by
      simp only [List.map_cons, List.map_nil, List.sum_cons, List.sum_nil]
      rw [abs_of_pos (by norm_num)]
      norm_num)

/-! ### Claim C1: idempotence of the safety filter -/

/-- Claim C1 fails on the code: with `hide_exact_costs` set, filtering the
one-glyph text `"₹"` once yields `"₹~"`, and filtering that again yields
`"₹~~"`, because `str.replace` matches the glyph inside the already
redacted token and appends another `~`. -/
theorem safety_filter_not_idempotent :
    safety_filter
        (safety_filter "₹" { hide_exact_costs := true, hide_supplier_names := true })
        { hide_exact_costs := true, hide_supplier_names := true } ≠
      safety_filter "₹" { hide_exact_costs := true, hide_supplier_names := true } := by
  decide

/-- Claim C1 amended: the safety filter is idempotent exactly where a
second pass finds nothing to redact again — when `hide_exact_costs` is
unset, or when the text contains neither the currency glyph `₹` nor the
currency code `INR`; with the flag set and such a token present,
re-filtering appends a further `~` to each redacted token. -/
theorem safety_filter_idempotent_cases (text : String) (flags : SafetyFlags)
    (h : flags.hide_exact_costs = false ∨
      (containsSub "₹".data text.data = false ∧ containsSub "INR".data text.data = false)) :
    safety_filter (safety_filter text flags) flags = safety_filter text flags := by
  rcases h with h | ⟨h1, h2⟩
  · simp [safety_filter, h]
  · rw [safety_filter_eq_of_no_token text flags h1 h2,
      safety_filter_eq_of_no_token text flags h1 h2]

/-- Witness for `safety_filter_idempotent_cases` at a concrete token-free
text with the flag set. -/
theorem safety_filter_idempotent_cases_witness :
    safety_filter
        (safety_filter "price moved" { hide_exact_costs := true, hide_supplier_names := true })
        { hide_exact_costs := true, hide_supplier_names := true } =
      safety_filter "price moved" { hide_exact_costs := true, hide_supplier_names := true } :=
  safety_filter_idempotent_cases "price moved"
    { hide_exact_costs := true, hide_supplier_names := true }
    (Or.inr ⟨by decide, by decide⟩)

/-! ### Claim C5: refusal on any missing required field -/

/-- Claim C5: whenever any of the nine required top-level fields is
absent, `generate_explanations` returns the refusal payload, in which
both audience texts equal the fixed refusal string and `error` is set. -/
theorem generate_refuses_on_missing_field (e : Evidence)
    (h : e.old_price = none ∨ e.new_price = none ∨ e.currency = none ∨
         e.model_version = none ∨ e.time_window = none ∨ e.features_used = none ∨
         e.confidence_score = none ∨ e.safety_flags = none ∨ e.xai_method = none) :
    generate_explanations e = Except.ok refusal_result := by
  have hv : validate_evidence e = false := by
    rcases h with h | h | h | h | h | h | h | h | h <;> simp [validate_evidence, h]
  simp [generate_explanations, hv]

/-- Witness for `generate_refuses_on_missing_field` on the empty record. -/
theorem generate_refuses_on_missing_field_witness :
    generate_explanations
      { event_id := none, product_id := none, old_price := none, new_price := none,
        currency := none, event_time := none, model_version := none, xai_method := none,
        time_window := none, features_used := none, confidence_score := none,
        safety_flags := none } = Except.ok refusal_result :=
  generate_refuses_on_missing_field _ (Or.inl rfl)

/-! ### Claim C6: refusal on a wrong explainability method tag -/

/-- Claim C6: whenever the `xai_method` field holds anything other than
the literal `"SHAP"`, `generate_explanations` returns the refusal
payload, independently of the other fields. -/
theorem generate_refuses_on_bad_xai (e : Evidence) (m : String)
    (hx : e.xai_method = some m) (hm : m ≠ "SHAP") :
    generate_explanations e = Except.ok refusal_result := by
  have hv : validate_evidence e = false := by
    simp [validate_evidence, hx, hm]
  simp [generate_explanations, hv]

/-- Witness for `generate_refuses_on_bad_xai`: a fully populated,
otherwise well-formed evidence record declaring `"LIME"`. -/
theorem generate_refuses_on_bad_xai_witness :
    generate_explanations
      { event_id := some "e1", product_id := some "SKU-123", old_price := some 100,
        new_price := some 200, currency := some "INR", event_time := some "t",
        model_version := some "pricing_xgboost_v1", xai_method := some "LIME",
        time_window := some { window_from := "2026-01-01", window_to := "2026-01-08" },
        features_used := some [], confidence_score := some (some (92/100)),
        safety_flags := some { hide_exact_costs := true, hide_supplier_names := true } } =
      Except.ok refusal_result :=
  generate_refuses_on_bad_xai _ "LIME" rfl (by decide)

/-! ### Claim C7: the materiality gate -/

/-- Claim C7: on every call with a stored baseline, a price move strictly
below `0.01` returns `None` at once — the engine is left untouched and
the attribution path is not entered — while a move of at least `0.01`
hands over to the attribution path. -/
theorem analyze_change_gating (eng : AttributionEngine) (prev s : State)
    (u t w1 w2 : String) (hprev : eng.previous_state = some prev) :
    (|s.price - prev.price| < 1/100 →
      analyze_change eng s u t w1 w2 = (eng, Except.ok none)) ∧
    (1/100 ≤ |s.price - prev.price| →
      analyze_change eng s u t w1 w2 = attribution_path eng prev s u t w1 w2) := by
  constructor
  · intro hlt
    simp only [analyze_change, hprev]
    rw [if_pos hlt]
  · intro hge
    simp only [analyze_change, hprev]
    rw [if_neg (not_lt.2 hge)]

/-- Witness for `analyze_change_gating`: an unchanged price is gated out. -/
theorem analyze_change_gating_witness :
    analyze_change
        { previous_state := some { price := 100, inputs := [] }, explainer := none,
          feature_names := [] }
        { price := 100, inputs := [] } "u" "t" "a" "b" =
      ({ previous_state := some { price := 100, inputs := [] }, explainer := none,
         feature_names := [] }, Except.ok none) :=
  (analyze_change_gating _ { price := 100, inputs := [] } { price := 100, inputs := [] }
      "u" "t" "a" "b" rfl).1
    (by rw [sub_self, abs_zero]; norm_num)

/-! ### Claim C3: baseline replacement -/

/-- Whenever the attribution path returns normally (evidence or `None`),
it has replaced the baseline with the new state. -/
theorem attribution_path_previous (eng : AttributionEngine) (prev s : State)
    (u t w1 w2 : String) (r : Option Evidence)
    (h : (attribution_path eng prev s u t w1 w2).2 = Except.ok r) :
    (attribution_path eng prev s u t w1 w2).1.previous_state = some s := by
  cases hc : compute_features eng prev s with
  | error err => simp [attribution_path, hc] at h
  | ok fs0 =>
    simp only [attribution_path, hc]
    split <;> simp

/-- Claim C3 fails on the code: a second call whose price move is below
`0.01` returns `None` from the gate (line 82) before the baseline
assignments at lines 157/189, so `previous_state` still holds the old
state, not the state just passed in. -/
theorem baseline_not_replaced_counterexample :
    (analyze_change
        { previous_state := some { price := 100, inputs := [] }, explainer := none,
          feature_names := [] }
        { price := 100 + 1/200, inputs := [] } "u" "t" "a" "b").2 = Except.ok none ∧
    (analyze_change
        { previous_state := some { price := 100, inputs := [] }, explainer := none,
          feature_names := [] }
        { price := 100 + 1/200, inputs := [] } "u" "t" "a" "b").1.previous_state ≠
      some { price := 100 + 1/200, inputs := [] } := by
  have hlt : |(100 + 1/200 : ℚ) - 100| < 1/100 := by
    rw [show (100 + 1/200 : ℚ) - 100 = 1/200 by ring, abs_of_pos (by norm_num)]
    norm_num
  have h : analyze_change
      { previous_state := some { price := 100, inputs := [] }, explainer := none,
        feature_names := [] }
      { price := 100 + 1/200, inputs := [] } "u" "t" "a" "b" =
      ({ previous_state := some { price := 100, inputs := [] }, explainer := none,
         feature_names := [] }, Except.ok none) := by
    simp only [analyze_change]
    rw [if_pos hlt]
  rw [h]
  refine ⟨rfl, ?_⟩
  intro hcontra
  simp only [Option.some.injEq, State.mk.injEq] at hcontra
  have := hcontra.1
  norm_num at this

/-- Claim C3 amended: the stored baseline equals the state passed in by
the time the call returns whenever the call passed the materiality gate
and returned normally — both when it produced evidence and when sum
validation failed; a call gated out by `|Δprice| < 0.01` leaves the
engine, and hence the baseline, unchanged. -/
theorem baseline_replacement (eng : AttributionEngine) (prev s : State)
    (u t w1 w2 : String) (hprev : eng.previous_state = some prev) :
    (|s.price - prev.price| < 1/100 → (analyze_change eng s u t w1 w2).1 = eng) ∧
    (1/100 ≤ |s.price - prev.price| →
      ∀ r : Option Evidence, (analyze_change eng s u t w1 w2).2 = Except.ok r →
        (analyze_change eng s u t w1 w2).1.previous_state = some s) := by
  constructor
  · intro hlt
    simp only [analyze_change, hprev]
    rw [if_pos hlt]
  · intro hge r h
    have hx : analyze_change eng s u t w1 w2 = attribution_path eng prev s u t w1 w2 := by
      simp only [analyze_change, hprev]
      rw [if_neg (not_lt.2 hge)]
    rw [hx] at h ⊢
    exact attribution_path_previous eng prev s u t w1 w2 r h

/-- Witness for `baseline_replacement`: after a material move the stored
baseline is the new state. -/
theorem baseline_replacement_witness :
    (analyze_change
      { previous_state := some { price := 10, inputs := [] }, explainer := none,
        feature_names := [] }
      { price := 20, inputs := [] } "u3" "t3" "f3" "g3").1.previous_state =
      some { price := 20, inputs := [] } := by
  have hge : (1 : ℚ)/100 ≤ |(20 : ℚ) - 10| := by
    rw [show (20 : ℚ) - 10 = 10 by norm_num, abs_of_pos (by norm_num : (0:ℚ) < 10)]
    norm_num
  have hcond : ¬ ((1/1000 : ℚ) < |(([] : List Feature).map Feature.attribution).sum - 1| ∧
      0 < ([] : List Feature).length) := by
    intro hcontra
    simpa using hcontra.2
  refine (baseline_replacement
      { previous_state := some { price := 10, inputs := [] }, explainer := none,
        feature_names := [] }
      { price := 10, inputs := [] } { price := 20, inputs := [] } "u3" "t3" "f3" "g3" rfl).2
    hge
    (some
      { event_id := some "u3", product_id := some "SKU-123", old_price := some 10,
        new_price := some 20, currency := some "INR", event_time := some "t3",
        model_version := some "pricing_xgboost_v1", xai_method := some "SHAP",
        time_window := some { window_from := "f3", window_to := "g3" },
        features_used := some [], confidence_score := some (some (92/100)),
        safety_flags := some { hide_exact_costs := true, hide_supplier_names := true } }) ?_
  simp only [analyze_change]
  rw [if_neg (not_lt.2 hge)]
  simp only [attribution_path, compute_features, fallback_features]
  rw [show normalize_attributions [] = [] from rfl]
  rw [if_neg hcond]

/-! ### Claim C8: rendering order of the attribution narrative -/

theorem featLE_trans : ∀ a b c : Feature,
    featLE a b = true → featLE b c = true → featLE a c = true := by
  intro a b c hab hbc
  simp only [featLE, decide_eq_true_eq] at *
  exact le_trans hbc hab

theorem featLE_total : ∀ a b : Feature, (featLE a b || featLE b a) = true := by
  intro a b
  simp only [featLE, Bool.or_eq_true, decide_eq_true_eq]
  exact le_total _ _

/-- Claim C8: the renderer lists the features in descending order of
absolute attribution; the listing is a permutation of `features_used`;
and two features of equal absolute attribution keep their original
relative order (stability). -/
theorem sorted_features_spec (features : List Feature) :
    (sorted_features features).Pairwise
      (fun a b => |b.attribution| ≤ |a.attribution|) ∧
    (sorted_features features).Perm features ∧
    ∀ a b : Feature, |a.attribution| = |b.attribution| →
      List.Sublist [a, b] features → List.Sublist [a, b] (sorted_features features) := by
  refine ⟨?_, List.mergeSort_perm features featLE, ?_⟩
  · refine (List.sorted_mergeSort featLE_trans featLE_total features).imp ?_
    intro a b hab
    simpa only [featLE, decide_eq_true_eq] using hab
  · intro a b hab hsub
    refine List.sublist_mergeSort featLE_trans featLE_total ?_ hsub
    simp [List.pairwise_cons, featLE, hab]

/-- Witness for `sorted_features_spec`: two equal-weight features stay in
input order. -/
theorem sorted_features_spec_witness :
    List.Sublist
      [{ name := "x", value_change_pct := 0, attribution := 3/10, shap_raw := none,
         data_source := "unknown" },
       { name := "y", value_change_pct := 0, attribution := 3/10, shap_raw := none,
         data_source := "unknown" }]
      (sorted_features
        [{ name := "x", value_change_pct := 0, attribution := 3/10, shap_raw := none,
           data_source := "unknown" },
         { name := "y", value_change_pct := 0, attribution := 3/10, shap_raw := none,
           data_source := "unknown" }]) :=
  (sorted_features_spec _).2.2 _ _ rfl (List.Sublist.refl _)

/-! ### Claim C9: evidence produced by the engine passes validation -/

/-- Claim C9: every evidence record actually returned by `analyze_change`
carries all nine required fields, a non-null confidence score and the
accepted `"SHAP"` method tag, so `validate_evidence` accepts it and the
two stages compose without refusal. -/
theorem analyze_change_evidence_validates (eng : AttributionEngine) (s : State)
    (u t w1 w2 : String) (ev : Evidence)
    (h : (analyze_change eng s u t w1 w2).2 = Except.ok (some ev)) :
    validate_evidence ev = true := by
  cases hp : eng.previous_state with
  | none => simp [analyze_change, hp] at h
  | some prev =>
    simp only [analyze_change, hp] at h
    by_cases hlt : |s.price - prev.price| < 1/100
    · rw [if_pos hlt] at h
      simp at h
    · rw [if_neg hlt] at h
      cases hc : compute_features eng prev s with
      | error err => simp [attribution_path, hc] at h
      | ok fs0 =>
        simp only [attribution_path, hc] at h
        split at h
        · simp at h
        · simp only [Except.ok.injEq, Option.some.injEq] at h
          rw [← h]
          simp [validate_evidence]

/-- Witness for `analyze_change_evidence_validates`: a second cycle with a
material price move and empty inputs yields an evidence record (with an
empty feature list), and it validates. -/
theorem analyze_change_evidence_validates_witness :
    validate_evidence
      { event_id := some "u9", product_id := some "SKU-123", old_price := some 1000,
        new_price := some 1200, currency := some "INR", event_time := some "t9",
        model_version := some "pricing_xgboost_v1", xai_method := some "SHAP",
        time_window := some { window_from := "f9", window_to := "g9" },
        features_used := some [], confidence_score := some (some (92/100)),
        safety_flags := some { hide_exact_costs := true, hide_supplier_names := true } } =
      true := by
  have hgate : ¬ (|(1200 : ℚ) - 1000| < 1/100) := by
    rw [show (1200 : ℚ) - 1000 = 200 by norm_num, abs_of_pos (by norm_num : (0:ℚ) < 200)]
    norm_num
  have hcond : ¬ ((1/1000 : ℚ) < |(([] : List Feature).map Feature.attribution).sum - 1| ∧
      0 < ([] : List Feature).length) := by
    intro hcontra
    simpa using hcontra.2
  refine analyze_change_evidence_validates
    { previous_state := some { price := 1000, inputs := [] }, explainer := none,
      feature_names := [] }
    { price := 1200, inputs := [] } "u9" "t9" "f9" "g9" _ ?_
  simp only [analyze_change]
  rw [if_neg hgate]
  simp only [attribution_path, compute_features, fallback_features]
  rw [show normalize_attributions [] = [] from rfl]
  rw [if_neg hcond]

/-! ### Claim C10: fallback attributions only name old-state features -/

theorem bump_first_names (d : ℚ) (l : List Feature) :
    (bump_first d l).map Feature.name = l.map Feature.name := by
  cases l <;> simp [bump_first]

theorem map_name_roundmap (l : List Feature) (t : ℚ) :
    (l.map (fun f => { f with attribution := round2 (f.attribution / t) })).map Feature.name =
      l.map Feature.name := by
  induction l with
  | nil => rfl
  | cons a l ih => simp [ih]

/-- Normalization never renames, reorders, drops or adds features. -/
theorem normalize_attributions_names (l : List Feature) :
    (normalize_attributions l).map Feature.name = l.map Feature.name := by
  simp only [normalize_attributions]
  split
  · rfl
  · split
    · rfl
    · split
      · rw [bump_first_names, map_name_roundmap]
      · rw [map_name_roundmap]

/-- Every feature built by the fallback loop is named after a key of the
old inputs (the loop iterates the old dict). -/
theorem fallback_features_names (new_inputs : List (String × ℚ)) :
    ∀ (old_inputs : List (String × ℚ)) (fs : List Feature),
      fallback_features new_inputs old_inputs = Except.ok fs →
      ∀ f ∈ fs, f.name ∈ old_inputs.map Prod.fst := by
  intro old
  induction old with
  | nil =>
    intro fs h f hf
    simp only [fallback_features, Except.ok.injEq] at h
    rw [← h] at hf
    simp at hf
  | cons kv rest ih =>
    intro fs h f hf
    obtain ⟨key, old_val⟩ := kv
    simp only [fallback_features, lookupE] at h
    cases hl : new_inputs.lookup key with
    | none => rw [hl] at h; simp at h
    | some v =>
      rw [hl] at h
      cases hr : fallback_features new_inputs rest with
      | error err => rw [hr] at h; simp at h
      | ok tail =>
        rw [hr] at h
        simp only [Except.ok.injEq] at h
        rw [← h] at hf
        simp only [List.map_cons, List.mem_cons]
        by_cases hcond : (1/1000 : ℚ) < |pct_change_of v old_val|
        · rw [if_pos hcond] at hf
          rcases List.mem_cons.mp hf with rfl | hf2
          · exact Or.inl rfl
          · exact Or.inr (ih tail hr f hf2)
        · rw [if_neg hcond] at hf
          exact Or.inr (ih tail hr f hf)

/-- Claim C10: in fallback mode, when every old-input key is still
present in the new inputs, every feature of the returned evidence is
named after a key of the old state's inputs; a key present only in the
new state never appears. -/
theorem analyze_change_fallback_old_keys (eng : AttributionEngine) (prev s : State)
    (u t w1 w2 : String) (ev : Evidence) (fs : List Feature)
    (hexp : eng.explainer = none)
    (hprev : eng.previous_state = some prev)
    (_hkeys : ∀ k ∈ prev.inputs.map Prod.fst, k ∈ s.inputs.map Prod.fst)
    (hres : (analyze_change eng s u t w1 w2).2 = Except.ok (some ev))
    (hfs : ev.features_used = some fs) :
    ∀ f ∈ fs, f.name ∈ prev.inputs.map Prod.fst := by
  simp only [analyze_change, hprev] at hres
  by_cases hlt : |s.price - prev.price| < 1/100
  · rw [if_pos hlt] at hres
    simp at hres
  · rw [if_neg hlt] at hres
    cases hc : compute_features eng prev s with
    | error err => simp [attribution_path, hc] at hres
    | ok fs0 =>
      simp only [attribution_path, hc] at hres
      split at hres
      · simp at hres
      · simp only [Except.ok.injEq, Option.some.injEq] at hres
        rw [← hres] at hfs
        simp only [Option.some.injEq] at hfs
        intro f hf
        rw [← hfs] at hf
        have h1 : f.name ∈ (normalize_attributions fs0).map Feature.name :=
          List.mem_map_of_mem Feature.name hf
        rw [normalize_attributions_names] at h1
        obtain ⟨g, hg, hgname⟩ := List.mem_map.1 h1
        rw [← hgname]
        have hfall : fallback_features s.inputs prev.inputs = Except.ok fs0 := by
          rw [← hc]
          simp [compute_features, hexp]
        exact fallback_features_names s.inputs prev.inputs fs0 hfall g hg

/-- Normalizing a single positively weighted feature yields weight one. -/
theorem normalize_attributions_single (f : Feature) (h : 0 < f.attribution) :
    normalize_attributions [f] = [{ f with attribution := 1 }] := by
  have habs : |f.attribution| = f.attribution := abs_of_pos h
  have hne : f.attribution ≠ 0 := ne_of_gt h
  simp only [normalize_attributions, List.isEmpty_cons, Bool.false_eq_true, if_false,
    List.map_cons, List.map_nil, List.sum_cons, List.sum_nil, add_zero, habs]
  rw [if_neg hne, div_self hne, round2_eq_self 1 twoDec_one]
  rw [sub_self, round2_eq_self 0 twoDec_zero, if_neg (not_not_intro rfl)]

/-- Witness for `analyze_change_fallback_old_keys`: a fallback cycle over
the single feature `demand_index` yields a feature list naming only that
old-state key. -/
theorem analyze_change_fallback_old_keys_witness :
    ({ name := "demand_index", value_change_pct := 25, attribution := 1,
       shap_raw := none, data_source := "sales_forecast_model" } : Feature).name ∈
      ([("demand_index", (40 : ℚ))].map Prod.fst) := by
  have hpct : pct_change_of 50 40 = 25 := by
    unfold pct_change_of
    rw [if_pos (by norm_num : (40 : ℚ) ≠ 0)]
    norm_num
  have hr1 : round1 25 = 25 := by
    unfold round1
    rw [show ((25 : ℚ) * 10) = ((250 : ℤ) : ℚ) by norm_num, rhe_intCast]
    norm_num
  have habs : |(25 : ℚ)| = 25 := abs_of_pos (by norm_num)
  have hfall : fallback_features [("demand_index", (50 : ℚ))] [("demand_index", (40 : ℚ))] =
      Except.ok [{ name := "demand_index", value_change_pct := 25, attribution := 25,
                   shap_raw := none, data_source := "sales_forecast_model" }] := by
    simp only [fallback_features, lookupE,
      show List.lookup "demand_index" [("demand_index", (50 : ℚ))] = some 50 from rfl]
    rw [hpct, habs, hr1, if_pos (by norm_num : (1/1000 : ℚ) < 25)]
    rfl
  have hnorm : normalize_attributions
      [{ name := "demand_index", value_change_pct := 25, attribution := 25,
         shap_raw := none, data_source := "sales_forecast_model" }] =
      [{ name := "demand_index", value_change_pct := 25, attribution := 1,
         shap_raw := none, data_source := "sales_forecast_model" }] :=
    normalize_attributions_single _ (by norm_num)
  have hgate : ¬ (|(1100 : ℚ) - 1000| < 1/100) := by
    rw [show (1100 : ℚ) - 1000 = 100 by norm_num, abs_of_pos (by norm_num : (0:ℚ) < 100)]
    norm_num
  have hcond : ¬ ((1/1000 : ℚ) <
      |(([{ name := "demand_index", value_change_pct := 25, attribution := 1,
            shap_raw := none, data_source := "sales_forecast_model" }] :
          List Feature).map Feature.attribution).sum - 1| ∧
      0 < ([{ name := "demand_index", value_change_pct := 25, attribution := 1,
              shap_raw := none, data_source := "sales_forecast_model" }] :
          List Feature).length) := by
    intro hcontra
    have h1 := hcontra.1
    simp only [List.map_cons, List.map_nil, List.sum_cons, List.sum_nil, add_zero] at h1
    rw [sub_self, abs_zero] at h1
    norm_num at h1
  refine analyze_change_fallback_old_keys
    { previous_state := some { price := 1000, inputs := [("demand_index", 40)] },
      explainer := none, feature_names := [] }
    { price := 1000, inputs := [("demand_index", 40)] }
    { price := 1100, inputs := [("demand_index", 50)] } "u0" "t0" "f0" "g0"
    { event_id := some "u0", product_id := some "SKU-123", old_price := some 1000,
      new_price := some 1100, currency := some "INR", event_time := some "t0",
      model_version := some "pricing_xgboost_v1", xai_method := some "SHAP",
      time_window := some { window_from := "f0", window_to := "g0" },
      features_used := some
        [{ name := "demand_index", value_change_pct := 25, attribution := 1,
           shap_raw := none, data_source := "sales_forecast_model" }],
      confidence_score := some (some (92/100)),
      safety_flags := some { hide_exact_costs := true, hide_supplier_names := true } }
    [{ name := "demand_index", value_change_pct := 25, attribution := 1,
       shap_raw := none, data_source := "sales_forecast_model" }]
    rfl rfl (by simp) ?_ rfl
    { name := "demand_index", value_change_pct := 25, attribution := 1,
      shap_raw := none, data_source := "sales_forecast_model" } (by simp)
  simp only [analyze_change]
  rw [if_neg hgate]
  simp only [attribution_path, compute_features, hfall, hnorm]
  rw [if_neg hcond]

/-! ### Claim C2: exceptions at the core boundary -/

/-- What a passing validation pins down about the record. -/
theorem validate_evidence_fields (e : Evidence) (h : validate_evidence e = true) :
    (∃ v, e.old_price = some v) ∧ (∃ v, e.new_price = some v) ∧ (∃ v, e.currency = some v) ∧
    (∃ v, e.model_version = some v) ∧ (∃ v, e.time_window = some v) ∧
    (∃ v, e.features_used = some v) ∧ (∃ v, e.confidence_score = some (some v)) ∧
    (∃ v, e.safety_flags = some v) ∧ e.xai_method = some "SHAP" := by
  unfold validate_evidence at h
  simp only [Bool.and_eq_true] at h
  obtain ⟨⟨⟨⟨⟨⟨⟨⟨⟨⟨h1, h2⟩, h3⟩, h4⟩, h5⟩, h6⟩, h7⟩, h8⟩, h9⟩, h10⟩, h11⟩ := h
  rw [Option.isSome_iff_exists] at h1 h2 h3 h4 h5 h6 h7 h8
  rw [Bool.not_eq_true', decide_eq_false_iff_not] at h10
  rw [decide_eq_true_eq] at h11
  refine ⟨h1, h2, h3, h4, h5, h6, ?_, h8, h11⟩
  obtain ⟨v, hv⟩ := h7
  have hvne : v ≠ none := by
    intro hcontra
    rw [hcontra] at hv
    exact h10 hv
  obtain ⟨c, hc⟩ := Option.ne_none_iff_exists'.mp hvne
  exact ⟨c, by rw [hv, hc]⟩

/-- The renderer never raises on a record that passed validation: every
field it subscripts is present and the confidence score is non-null. -/
theorem format_explanation_total (e : Evidence) (h : validate_evidence e = true)
    (audience : String) : ∃ s, format_explanation e audience = Except.ok s := by
  obtain ⟨⟨op, hop⟩, ⟨np, hnp⟩, ⟨cu, hcu⟩, ⟨mv, hmv⟩, ⟨tw, htw⟩, ⟨fu, hfu⟩, ⟨cs, hcs⟩,
    ⟨sf, hsf⟩, hx⟩ := validate_evidence_fields e h
  unfold format_explanation
  rw [hop, hnp, hcu, htw, hmv, hcs, hfu]
  simp only [req]
  exact ⟨_, rfl⟩

/-- A key listed among an association list's keys can be looked up. -/
theorem lookup_of_mem_keys (l : List (String × ℚ)) (k : String)
    (hk : k ∈ l.map Prod.fst) : ∃ v, l.lookup k = some v := by
  induction l with
  | nil => simp at hk
  | cons kv rest ih =>
    obtain ⟨a, b⟩ := kv
    simp only [List.map_cons, List.mem_cons] at hk
    by_cases hak : k = a
    · subst hak
      exact ⟨b, by simp [List.lookup]⟩
    · rcases hk with h | h
      · exact absurd h hak
      · obtain ⟨v, hv⟩ := ih h
        have hbeq : (k == a) = false := beq_eq_false_iff_ne.mpr hak
        exact ⟨v, by simp [List.lookup, hbeq, hv]⟩

/-- The fallback loop never raises when every old key is still present. -/
theorem fallback_features_total (new_inputs : List (String × ℚ)) :
    ∀ old_inputs : List (String × ℚ),
      (∀ k ∈ old_inputs.map Prod.fst, k ∈ new_inputs.map Prod.fst) →
      ∃ fs, fallback_features new_inputs old_inputs = Except.ok fs := by
  intro old
  induction old with
  | nil => exact fun _ => ⟨[], rfl⟩
  | cons kv rest ih =>
    intro hk
    obtain ⟨key, old_val⟩ := kv
    obtain ⟨v, hv⟩ := lookup_of_mem_keys new_inputs key (hk key (by simp))
    obtain ⟨tail, htail⟩ := ih (fun k hkk => hk k (by simp [hkk]))
    simp only [fallback_features, lookupE, hv, htail]
    exact ⟨_, rfl⟩

/-- The explainer loop never raises when the SHAP value array covers the
feature-name list. -/
theorem shap_features_total (sv : List ℚ) (new_inputs old_inputs : List (String × ℚ)) :
    ∀ (names : List String) (i : Nat), i + names.length ≤ sv.length →
      ∃ fs, shap_features sv new_inputs old_inputs i names = Except.ok fs := by
  intro names
  induction names with
  | nil => exact fun i _ => ⟨[], rfl⟩
  | cons name rest ih =>
    intro i hlen
    have hi : i < sv.length := by
      simp only [List.length_cons] at hlen
      omega
    obtain ⟨tail, htail⟩ := ih (i + 1) (by simp only [List.length_cons] at hlen; omega)
    simp only [shap_features, List.getElem?_eq_getElem hi, htail]
    exact ⟨_, rfl⟩

/-- Once attribution computation succeeded, the rest of the attribution
path (normalization, sum check, evidence construction) cannot raise. -/
theorem attribution_path_ok (eng : AttributionEngine) (prev s : State)
    (u t w1 w2 : String) (fs0 : List Feature)
    (hc : compute_features eng prev s = Except.ok fs0) :
    ∃ o, (attribution_path eng prev s u t w1 w2).2 = Except.ok o := by
  simp only [attribution_path, hc]
  split
  · exact ⟨none, rfl⟩
  · exact ⟨_, rfl⟩

/-- Claim C2 fails on the code at two places.  First, `event_id` is read
by `generate_explanations` on success (line 160) but is not among the
nine validated fields, so a record that passes validation without it
raises `KeyError`.  Second, in fallback mode `new_inputs[key]` (line 133)
raises `KeyError` for a key of the old inputs missing from the new
inputs. -/
theorem core_boundary_raises_counterexample :
    generate_explanations
      { event_id := none, product_id := none, old_price := some 100, new_price := some 200,
        currency := some "INR", event_time := none,
        model_version := some "pricing_xgboost_v1", xai_method := some "SHAP",
        time_window := some { window_from := "2026-02-01", window_to := "2026-02-08" },
        features_used := some [], confidence_score := some (some (92/100)),
        safety_flags := some { hide_exact_costs := true, hide_supplier_names := true } } =
      Except.error (PyErr.keyError "event_id") ∧
    (analyze_change
      { previous_state := some { price := 100, inputs := [("alpha", 5)] }, explainer := none,
        feature_names := [] }
      { price := 200, inputs := [] } "u2" "t2" "f2" "g2").2 =
      Except.error (PyErr.keyError "alpha") := by
  constructor
  · have hv : validate_evidence
        { event_id := none, product_id := none, old_price := some 100, new_price := some 200,
          currency := some "INR", event_time := none,
          model_version := some "pricing_xgboost_v1", xai_method := some "SHAP",
          time_window := some { window_from := "2026-02-01", window_to := "2026-02-08" },
          features_used := some [], confidence_score := some (some (92/100)),
          safety_flags := some { hide_exact_costs := true, hide_supplier_names := true } } =
        true := by decide
    obtain ⟨s1, h1⟩ := format_explanation_total _ hv "customer"
    obtain ⟨s2, h2⟩ := format_explanation_total _ hv "regulator"
    unfold generate_explanations
    rw [if_pos hv, h1, h2]
    rfl
  · have hgate : ¬ (|(200 : ℚ) - 100| < 1/100) := by
      rw [show (200 : ℚ) - 100 = 100 by norm_num, abs_of_pos (by norm_num : (0:ℚ) < 100)]
      norm_num
    simp only [analyze_change]
    rw [if_neg hgate]
    rfl

/-- Claim C2 amended: no exception crosses the boundary on inputs that are
well-formed beyond what the code checks.  `generate_explanations` returns
normally (refusal payload or both texts) for every evidence record whose
`event_id` key is present; `analyze_change` returns normally (evidence or
`None`) on a first call, on a gated call, on a fallback call in which
every old-input key is still present in the new inputs, and on an
explainer call in which the SHAP value array covers the feature-name
list.  Outside these hypotheses a `KeyError`/`IndexError` escapes, as the
counterexample shows. -/
theorem core_boundary_no_raise :
    (∀ e : Evidence, e.event_id ≠ none → ∃ r, generate_explanations e = Except.ok r) ∧
    (∀ (eng : AttributionEngine) (s : State) (u t w1 w2 : String),
      eng.previous_state = none →
      ∃ o, (analyze_change eng s u t w1 w2).2 = Except.ok o) ∧
    (∀ (eng : AttributionEngine) (prev s : State) (u t w1 w2 : String),
      eng.previous_state = some prev → |s.price - prev.price| < 1/100 →
      ∃ o, (analyze_change eng s u t w1 w2).2 = Except.ok o) ∧
    (∀ (eng : AttributionEngine) (prev s : State) (u t w1 w2 : String),
      eng.previous_state = some prev → eng.explainer = none →
      (∀ k ∈ prev.inputs.map Prod.fst, k ∈ s.inputs.map Prod.fst) →
      ∃ o, (analyze_change eng s u t w1 w2).2 = Except.ok o) ∧
    (∀ (eng : AttributionEngine) (prev s : State) (ex : List (String × ℚ) → List ℚ)
       (u t w1 w2 : String),
      eng.previous_state = some prev → eng.explainer = some ex →
      eng.feature_names.length ≤ (ex s.inputs).length →
      ∃ o, (analyze_change eng s u t w1 w2).2 = Except.ok o) := by
  refine ⟨?_, ?_, ?_, ?_, ?_⟩
  · intro e hid
    by_cases hv : validate_evidence e
    · obtain ⟨s1, h1⟩ := format_explanation_total e hv "customer"
      obtain ⟨s2, h2⟩ := format_explanation_total e hv "regulator"
      obtain ⟨sf, hsf⟩ := (validate_evidence_fields e hv).2.2.2.2.2.2.2.1
      obtain ⟨eid, heid⟩ := Option.ne_none_iff_exists'.mp hid
      unfold generate_explanations
      rw [if_pos hv, h1, h2, hsf, heid]
      simp only [req]
      exact ⟨_, rfl⟩
    · exact ⟨refusal_result, by unfold generate_explanations; rw [if_neg hv]⟩
  · intro eng s u t w1 w2 hp
    exact ⟨none, by simp [analyze_change, hp]⟩
  · intro eng prev s u t w1 w2 hp hlt
    refine ⟨none, ?_⟩
    simp only [analyze_change, hp]
    rw [if_pos hlt]
  · intro eng prev s u t w1 w2 hp hexp hkeys
    by_cases hlt : |s.price - prev.price| < 1/100
    · refine ⟨none, ?_⟩
      simp only [analyze_change, hp]
      rw [if_pos hlt]
    · obtain ⟨fs0, hfs0⟩ := fallback_features_total s.inputs prev.inputs hkeys
      have hc : compute_features eng prev s = Except.ok fs0 := by
        simp [compute_features, hexp, hfs0]
      obtain ⟨o, ho⟩ := attribution_path_ok eng prev s u t w1 w2 fs0 hc
      refine ⟨o, ?_⟩
      simp only [analyze_change, hp]
      rw [if_neg hlt]
      exact ho
  · intro eng prev s ex u t w1 w2 hp hexp hlen
    by_cases hlt : |s.price - prev.price| < 1/100
    · refine ⟨none, ?_⟩
      simp only [analyze_change, hp]
      rw [if_pos hlt]
    · obtain ⟨fs0, hfs0⟩ := shap_features_total (ex s.inputs) s.inputs prev.inputs
        eng.feature_names 0 (by simpa using hlen)
      have hc : compute_features eng prev s = Except.ok fs0 := by
        simp [compute_features, hexp, hfs0]
      obtain ⟨o, ho⟩ := attribution_path_ok eng prev s u t w1 w2 fs0 hc
      refine ⟨o, ?_⟩
      simp only [analyze_change, hp]
      rw [if_neg hlt]
      exact ho

/-- Witness for `core_boundary_no_raise`: a record with `event_id`
present (and nothing else) is answered with the refusal payload, not an
exception. -/
theorem core_boundary_no_raise_witness :
    ∃ r, generate_explanations
      { event_id := some "w2", product_id := none, old_price := none, new_price := none,
        currency := none, event_time := none, model_version := none, xai_method := none,
        time_window := none, features_used := none, confidence_score := none,
        safety_flags := none } = Except.ok r :=
  core_boundary_no_raise.1 _ (by decide)

end PriceLens
